import Mathlib

/-!
Verification of the MSXVI strategy simulation core
(src/simulation/simulation.py, src/simulation/optimizer.py,
src/simulation/config.py) against its specification.

The Python code works on numpy float64 arrays; the shallow embedding uses
exact rationals (ℚ) and `List ℚ` for 1-D arrays, with each decimal literal
of the source represented by the exact fraction it denotes.  The single
transcendental operation, `np.sin(np.deg2rad θ)`, is modelled by an explicit
function parameter `sinDeg : ℚ → ℚ`: theorems either quantify over it or
instantiate it on zero-grade inputs, where `np.sin 0.0 = 0.0` exactly.
-/

unseal Rat.add Rat.sub Rat.mul Rat.inv Rat.ofScientific

namespace Strategy

/-- `VehicleParams` dataclass of src/simulation/simulation.py:
physical constants of the vehicle, with the source's default values. -/
structure VehicleParams where
  mass : ℚ := 450
  drag_coeff : ℚ := 18 / 100
  front_area : ℚ := 1357 / 1000
  C_RR : ℚ := 4 / 1000
  solar_area : ℚ := 4
  panel_eff : ℚ := 243 / 1000
  bat_max_energy : ℚ := 40 * (363 / 100) * 36 * 3600
  air_density : ℚ := 1293 / 1000
  gravity_const : ℚ := 981 / 100
  drive_eff : ℚ := 94 / 100
deriving DecidableEq, Repr

/-- The default-constructed `VehicleParams()` used as the default argument
of `simulate` and in the spec's scenario claims. -/
def defaultVP : VehicleParams := {}

/-- `rolling_power(v, M, g, C_RR) = (M * g * C_RR) * v`, elementwise body of
the vectorized source function. -/
def rolling_power (v M g C_RR : ℚ) : ℚ := (M * g * C_RR) * v

/-- `drag_power(v, rho, Cd, A) = 0.5 * rho * Cd * A * v**3`, elementwise. -/
def drag_power (v rho Cd A : ℚ) : ℚ := (1 / 2) * rho * Cd * A * v ^ 3

/-- `grade_power(v, theta_rad, M, g) = M * g * np.sin(theta_rad) * v`,
elementwise; `sinTheta` stands for the already-evaluated `np.sin(theta_rad)`
of the corresponding timestep. -/
def grade_power (v sinTheta M g : ℚ) : ℚ := M * g * sinTheta * v

/-- `solar_power(G, A_solar, panel_eff) = A_solar * panel_eff * G`,
elementwise. -/
def solar_power (G A_solar panel_eff : ℚ) : ℚ := A_solar * panel_eff * G

/-- `np.clip(x, lo, hi)`: `max` then `min`, as numpy computes it. -/
def clip (x lo hi : ℚ) : ℚ := min (max x lo) hi

/-- Distance timeline of `simulate` (identical to the helper
`distance_trajectory`): `d[0] = d0`, `d[i] = d0 + Σ_{k<i} v[k]*dt`. -/
def distanceTrace (v : List ℚ) (dt d0 : ℚ) : List ℚ :=
  (List.range v.length).map (fun i => d0 + ((v.take i).map (fun x => x * dt)).sum)

/-- Battery integration of `simulate`: `Ebat[0] = cap`, and for `i ≥ 1`
`Ebat[i] = clip(cap - cumsum(E_net)[i-1], 0, cap)`
(the clip is applied to the cumulative sum, exactly as
`np.clip(Ebat[0] - np.cumsum(E_net[:-1]), 0.0, cap)` does). -/
def ebatTrace (N : ℕ) (cap : ℚ) (E_net : List ℚ) : List ℚ :=
  (List.range N).map (fun i =>
    if i = 0 then cap else clip (cap - ((E_net.take i).sum)) 0 cap)

/-- `np.argmax(Ebat <= 0.0)`: index of the first `True`, and `0` when the
condition never holds. -/
def firstEmptyIdx (Ebat : List ℚ) : ℕ :=
  match Ebat.findIdx? (fun x => decide (x ≤ 0)) with
  | some i => i
  | none => 0

/-- The in-place overwrite `d[empty_idx:] = d[empty_idx]` of `simulate`,
as a fresh list. -/
def freezeDistance (d : List ℚ) (e : ℕ) : List ℚ :=
  (List.range d.length).map (fun i => if i < e then d.getD i 0 else d.getD e 0)

/-- Rolling-resistance power trace `P_rr` of `simulate`. -/
def pRR (v : List ℚ) (p : VehicleParams) : List ℚ :=
  v.map (fun x => rolling_power x p.mass p.gravity_const p.C_RR)

/-- Aerodynamic-drag power trace `P_drag` of `simulate`. -/
def pDrag (v : List ℚ) (p : VehicleParams) : List ℚ :=
  v.map (fun x => drag_power x p.air_density p.drag_coeff p.front_area)

/-- Raw grade power trace `P_grade_raw` of `simulate`; `theta_deg.map sinDeg`
is the elementwise `np.sin(np.deg2rad(theta_deg))`. -/
def pGradeRaw (sinDeg : ℚ → ℚ) (v theta_deg : List ℚ) (p : VehicleParams) : List ℚ :=
  List.zipWith (fun x s => grade_power x s p.mass p.gravity_const) v (theta_deg.map sinDeg)

/-- Solar power trace `P_solar` of `simulate`. -/
def pSolar (ghi : List ℚ) (p : VehicleParams) : List ℚ :=
  ghi.map (fun G => solar_power G p.solar_area p.panel_eff)

/-- `max(p.drive_eff, 1e-9)`, the guarded drivetrain efficiency divisor. -/
def driveEff (p : VehicleParams) : ℚ := max p.drive_eff (1 / 1000000000)

/-- Net battery power draw `P_net` of `simulate`:
`(P_rr/eff + P_drag/eff + max(P_grade_raw,0)/eff) - P_solar`, elementwise. -/
def pNet (sinDeg : ℚ → ℚ) (v theta_deg ghi : List ℚ) (p : VehicleParams) : List ℚ :=
  List.zipWith (fun a b => a - b)
    (List.zipWith (fun a b => a + b)
      (List.zipWith (fun a b => a + b)
        ((pRR v p).map (fun x => x / driveEff p))
        ((pDrag v p).map (fun x => x / driveEff p)))
      ((pGradeRaw sinDeg v theta_deg p).map (fun x => max x 0 / driveEff p)))
    (pSolar ghi p)

/-- Net energy trace `E_net = P_net * dt` of `simulate`. -/
def eNet (sinDeg : ℚ → ℚ) (v : List ℚ) (dt : ℚ) (theta_deg ghi : List ℚ)
    (p : VehicleParams) : List ℚ :=
  (pNet sinDeg v theta_deg ghi p).map (fun x => x * dt)

/-- Battery trace `Ebat` of `simulate`. -/
def simEbat (sinDeg : ℚ → ℚ) (v : List ℚ) (dt : ℚ) (theta_deg ghi : List ℚ)
    (p : VehicleParams) : List ℚ :=
  ebatTrace v.length p.bat_max_energy (eNet sinDeg v dt theta_deg ghi p)

/-- Distance trace of `simulate` after the depletion-freeze policy:
when `stop_on_empty` holds, `Ebat[-1] <= 0.0` and `empty_idx > 0`, the
tail from `empty_idx` is overwritten with `d[empty_idx]`. -/
def simDistance (sinDeg : ℚ → ℚ) (v : List ℚ) (dt d0 : ℚ) (theta_deg ghi : List ℚ)
    (p : VehicleParams) (stop_on_empty : Bool) : List ℚ :=
  if stop_on_empty = true ∧ (simEbat sinDeg v dt theta_deg ghi p).getLastD 0 ≤ 0 ∧
      0 < firstEmptyIdx (simEbat sinDeg v dt theta_deg ghi p) then
    freezeDistance (distanceTrace v dt d0) (firstEmptyIdx (simEbat sinDeg v dt theta_deg ghi p))
  else
    distanceTrace v dt d0

/-- `SimResult` NamedTuple of the source; the `traces` dict becomes one
field per key. -/
structure SimResult where
  final_distance_m : ℚ
  final_soc_J : ℚ
  distance_m : List ℚ
  Ebat_J : List ℚ
  P_rr_W : List ℚ
  P_drag_W : List ℚ
  P_grade_W : List ℚ
  P_solar_W : List ℚ
  P_net_W : List ℚ
  E_rr_J : List ℚ
  E_drag_J : List ℚ
  E_grade_J : List ℚ
  E_solar_J : List ℚ
  E_net_J : List ℚ
  theta_deg : List ℚ
  ghi : List ℚ
  v : List ℚ
deriving DecidableEq, Repr

/-- `simulate(v, dt, d0, theta_deg, ghi, params, stop_on_empty)` of
src/simulation/simulation.py, assembled from the trace definitions above,
each of which transcribes the corresponding source line. -/
def simulate (sinDeg : ℚ → ℚ) (v : List ℚ) (dt d0 : ℚ) (theta_deg ghi : List ℚ)
    (p : VehicleParams) (stop_on_empty : Bool) : SimResult :=
  { final_distance_m := (simDistance sinDeg v dt d0 theta_deg ghi p stop_on_empty).getLastD 0
    final_soc_J := (simEbat sinDeg v dt theta_deg ghi p).getLastD 0
    distance_m := simDistance sinDeg v dt d0 theta_deg ghi p stop_on_empty
    Ebat_J := simEbat sinDeg v dt theta_deg ghi p
    P_rr_W := pRR v p
    P_drag_W := pDrag v p
    P_grade_W := pGradeRaw sinDeg v theta_deg p
    P_solar_W := pSolar ghi p
    P_net_W := pNet sinDeg v theta_deg ghi p
    E_rr_J := (pRR v p).map (fun x => x * dt)
    E_drag_J := (pDrag v p).map (fun x => x * dt)
    E_grade_J := (pGradeRaw sinDeg v theta_deg p).map (fun x => x * dt)
    E_solar_J := (pSolar ghi p).map (fun x => x * dt)
    E_net_J := eNet sinDeg v dt theta_deg ghi p
    theta_deg := theta_deg
    ghi := ghi
    v := v }

/-- `np.sin ∘ np.deg2rad` restricted to the zero-grade inputs used in the
concrete scenarios below: `np.sin(np.deg2rad(0.0)) = 0.0` exactly in IEEE
arithmetic, so the constant-zero function is its faithful model there. -/
def sinDeg0 : ℚ → ℚ := fun _ => 0

/-- `objective` of src/simulation/optimizer.py: negative final distance,
plus `1e8` when the final SOC is ≤ 0, plus `deficit * 100` when the final
SOC is below the 10%-of-capacity reserve. -/
def objective (sinDeg : ℚ → ℚ) (vs : List ℚ) (dt d0 : ℚ) (theta_deg ghi : List ℚ)
    (p : VehicleParams) : ℚ :=
  let res := simulate sinDeg vs dt d0 theta_deg ghi p true
  let score0 := -res.final_distance_m
  let score1 := if res.final_soc_J ≤ 0 then score0 + 100000000 else score0
  let min_reserve := (1 / 10) * p.bat_max_energy
  if res.final_soc_J < min_reserve then score1 + (min_reserve - res.final_soc_J) * 100
  else score1

/-! ## Shape behaviour of the numpy boundary (claim C8) -/

/-- Modelled: numpy implicit broadcasting of a 1-D array against length `N`
(the shape behaviour `simulate` inherits from numpy): an array of matching
length passes through, a length-1 array is silently replicated, and any
other mismatch raises a broadcast ValueError (`Option.none`). -/
def broadcastTo (l : List ℚ) (N : ℕ) : Option (List ℚ) :=
  if l.length = N then some l
  else if l.length = 1 then some (List.replicate N (l.getD 0 0))
  else Option.none

/-- Modelled: the shape behaviour of the Python `simulate` on possibly
mismatched inputs, for velocity arrays of length ≥ 2 (so that the velocity
length governs the broadcast): an empty velocity array raises IndexError at
`d[0] = d0` (`Option.none`), the grade and irradiance arrays are combined
with velocity-length arrays by numpy broadcasting, and on success the
simulation proceeds with the broadcast arrays.  The source performs no
input validation of its own. -/
def simulateNp (sinDeg : ℚ → ℚ) (v : List ℚ) (dt d0 : ℚ) (theta_deg ghi : List ℚ)
    (p : VehicleParams) (stop_on_empty : Bool) : Option SimResult :=
  if v.length = 0 then Option.none
  else
    match broadcastTo theta_deg v.length, broadcastTo ghi v.length with
    | some t, some g => some (simulate sinDeg v dt d0 t g p stop_on_empty)
    | _, _ => Option.none

/-! ## Configuration management (claim C9, src/simulation/config.py) -/

/-- Python runtime values that can appear as a configuration field or as the
`value` argument of `SimConfig.update_param`. -/
inductive PyVal where
  | pstr (s : String)
  | pint (n : Int)
  | pfloat (q : ℚ)
  | pbool (b : Bool)
  | pnone
deriving DecidableEq, Repr

/-- Python exceptions relevant to `SimConfig.update_param`. -/
inductive PyErr where
  | valueError
  | typeError
  | attributeError
deriving DecidableEq, Repr

/-- Numeric value of a decimal-digit character. -/
def charDigit (c : Char) : Option ℕ :=
  if c.isDigit then some (c.toNat - 48) else Option.none

/-- Modelled: Python decimal-digit-string parsing; `Option.none` on an empty
string or any non-digit character (the ValueError cases of `int(...)`). -/
def digitsVal : List Char → Option ℕ
  | [] => Option.none
  | l => l.foldl (fun acc c =>
      match acc, charDigit c with
      | some n, some d => some (10 * n + d)
      | _, _ => Option.none) (some 0)

/-- Modelled: Python `int(str)`, restricted to optionally-signed decimal
integer literals (no surrounding whitespace or underscores). -/
def pyParseIntChars (l : List Char) : Option Int :=
  match l with
  | '-' :: rest => (digitsVal rest).map (fun n => -(n : Int))
  | _ => (digitsVal l).map (fun n => (n : Int))

/-- Modelled: Python `float(str)` on an unsigned simple decimal literal
`digits` or `digits.digits`. -/
def pyParseFloatPos (l : List Char) : Option ℚ :=
  let ip := l.takeWhile (fun c => c != '.')
  match l.drop ip.length with
  | [] => (digitsVal ip).map (fun n => (n : ℚ))
  | _ :: frac =>
    match digitsVal ip, digitsVal frac with
    | some n, some f => some ((n : ℚ) + (f : ℚ) / 10 ^ frac.length)
    | _, _ => Option.none

/-- Modelled: Python `float(str)`, restricted to optionally-signed simple
decimal literals. -/
def pyParseFloatChars (l : List Char) : Option ℚ :=
  match l with
  | '-' :: rest => (pyParseFloatPos rest).map (fun q => -q)
  | _ => pyParseFloatPos l

/-- Modelled: Python `bool(value)` truthiness for non-string values (the
string case of `update_param` goes through the `.lower()` membership test
instead). -/
def pyBoolOf : PyVal → Bool
  | .pstr s => s.length != 0
  | .pint n => n != 0
  | .pfloat q => q != 0
  | .pbool b => b
  | .pnone => false

/-- Modelled: Python `int(value)`: parses strings (ValueError on failure),
truncates floats toward zero, converts bools, and raises TypeError on
`None`. -/
def pyIntOf : PyVal → Except PyErr Int
  | .pstr s =>
    match pyParseIntChars s.data with
    | some n => .ok n
    | _ => .error .valueError
  | .pint n => .ok n
  | .pfloat q => .ok (if 0 ≤ q then ⌊q⌋ else ⌈q⌉)
  | .pbool b => .ok (if b then 1 else 0)
  | .pnone => .error .typeError

/-- Modelled: Python `float(value)`: parses strings (ValueError on failure),
converts ints and bools, and raises TypeError on `None`. -/
def pyFloatOf : PyVal → Except PyErr ℚ
  | .pstr s =>
    match pyParseFloatChars s.data with
    | some q => .ok q
    | _ => .error .valueError
  | .pint n => .ok (n : ℚ)
  | .pfloat q => .ok q
  | .pbool b => .ok (if b then 1 else 0)
  | .pnone => .error .typeError

/-- Modelled: `str.lower()` for the ASCII strings used by the configuration
menu. -/
def pyLower (s : String) : String := String.mk (s.data.map Char.toLower)

/-- `SimConfig` dataclass of src/simulation/config.py with its default field
values as they exist at Python runtime; note `vmax: float = 15` is an `int`
at runtime (dataclasses do not coerce the annotation), so its field holds
`pint 15`. -/
structure SimConfig where
  dt : PyVal := .pfloat 1800
  vmin : PyVal := .pfloat 10
  vmax : PyVal := .pint 15
  method : PyVal := .pstr "Powell"
  max_iter : PyVal := .pint 2000
  energy_penalty : PyVal := .pfloat 0
  use_solcast : PyVal := .pbool false
  solcast_api_key : PyVal := .pnone
  gpx_file : PyVal := .pstr "0_FullBaseRoute.gpx"
deriving DecidableEq, Repr

/-- `hasattr`/`getattr` restricted to the dataclass fields of `SimConfig`
(the method names a `hasattr` would also accept are not configuration
parameters and are not modelled). -/
def SimConfig.getField (c : SimConfig) : String → Option PyVal
  | "dt" => some c.dt
  | "vmin" => some c.vmin
  | "vmax" => some c.vmax
  | "method" => some c.method
  | "max_iter" => some c.max_iter
  | "energy_penalty" => some c.energy_penalty
  | "use_solcast" => some c.use_solcast
  | "solcast_api_key" => some c.solcast_api_key
  | "gpx_file" => some c.gpx_file
  | _ => Option.none

/-- `setattr` over the dataclass fields of `SimConfig`. -/
def SimConfig.setField (c : SimConfig) (name : String) (x : PyVal) : SimConfig :=
  match name with
  | "dt" => { c with dt := x }
  | "vmin" => { c with vmin := x }
  | "vmax" => { c with vmax := x }
  | "method" => { c with method := x }
  | "max_iter" => { c with max_iter := x }
  | "energy_penalty" => { c with energy_penalty := x }
  | "use_solcast" => { c with use_solcast := x }
  | "solcast_api_key" => { c with solcast_api_key := x }
  | "gpx_file" => { c with gpx_file := x }
  | _ => c

/-- The type-coercion block of `update_param`: dispatch on the runtime type
of the current field value, in the source's isinstance order (bool before
int, since Python bools are ints). -/
def coerceLike (cur value : PyVal) : Except PyErr PyVal :=
  match cur with
  | .pbool _ =>
    .ok (.pbool (match value with
      | .pstr s => decide (pyLower s ∈ (["true", "1", "yes", "y"] : List String))
      | x => pyBoolOf x))
  | .pint _ => (pyIntOf value).map PyVal.pint
  | .pfloat _ => (pyFloatOf value).map PyVal.pfloat
  | _ => .ok value

/-- `SimConfig.update_param` of src/simulation/config.py: recognized field →
coerce by the current value's runtime type, set the field and return True;
coercion failures of kind ValueError or AttributeError are caught by the
`except (ValueError, AttributeError)` clause and reported as False with the
configuration unchanged; any other exception (such as the TypeError raised
by `int(None)`) propagates to the caller. -/
def SimConfig.update_param (c : SimConfig) (name : String) (value : PyVal) :
    Except PyErr (Bool × SimConfig) :=
  match c.getField name with
  | some cur =>
    match coerceLike cur value with
    | .ok nv => .ok (true, c.setField name nv)
    | .error .valueError => .ok (false, c)
    | .error .attributeError => .ok (false, c)
    | .error e => .error e
  | _ => .ok (false, c)

deriving instance DecidableEq for Except

/-! ## Indexing and length lemmas -/

theorem range_one_eq : List.range 1 = [0] := rfl

theorem getD_range_map (f : ℕ → ℚ) {N i : ℕ} (h : i < N) :
    ((List.range N).map f).getD i 0 = f i := by
  rw [List.getD_eq_getElem?_getD, List.getElem?_map, List.getElem?_range h]
  rfl

theorem getD_map (f : ℚ → ℚ) {l : List ℚ} {i : ℕ} (h : i < l.length) :
    (l.map f).getD i 0 = f (l.getD i 0) := by
  rw [List.getD_eq_getElem?_getD, List.getElem?_map,
    List.getD_eq_getElem?_getD, List.getElem?_eq_getElem h]
  rfl

theorem getD_zipWith (f : ℚ → ℚ → ℚ) :
    ∀ (a b : List ℚ) (i : ℕ), i < a.length → i < b.length →
      (List.zipWith f a b).getD i 0 = f (a.getD i 0) (b.getD i 0)
  | [], _, i, ha, _ => by simp at ha
  | _ :: _, [], i, _, hb => by simp at hb
  | x :: xs, y :: ys, 0, _, _ => rfl
  | x :: xs, y :: ys, i + 1, ha, hb =>
    getD_zipWith f xs ys i (Nat.lt_of_succ_lt_succ ha) (Nat.lt_of_succ_lt_succ hb)

theorem length_distanceTrace (v : List ℚ) (dt d0 : ℚ) :
    (distanceTrace v dt d0).length = v.length := by
  simp [distanceTrace]

theorem length_freezeDistance (d : List ℚ) (e : ℕ) :
    (freezeDistance d e).length = d.length := by
  simp [freezeDistance]

theorem length_pRR (v : List ℚ) (p : VehicleParams) : (pRR v p).length = v.length := by
  simp [pRR]

theorem length_pDrag (v : List ℚ) (p : VehicleParams) : (pDrag v p).length = v.length := by
  simp [pDrag]

theorem length_pGradeRaw (sinDeg : ℚ → ℚ) (v theta_deg : List ℚ) (p : VehicleParams)
    (hth : theta_deg.length = v.length) :
    (pGradeRaw sinDeg v theta_deg p).length = v.length := by
  simp [pGradeRaw, hth]

theorem length_pSolar (ghi : List ℚ) (p : VehicleParams) : (pSolar ghi p).length = ghi.length := by
  simp [pSolar]

theorem length_pNet (sinDeg : ℚ → ℚ) (v theta_deg ghi : List ℚ) (p : VehicleParams)
    (hth : theta_deg.length = v.length) (hg : ghi.length = v.length) :
    (pNet sinDeg v theta_deg ghi p).length = v.length := by
  simp [pNet, pRR, pDrag, pGradeRaw, pSolar, hth, hg]

theorem length_simEbat (sinDeg : ℚ → ℚ) (v : List ℚ) (dt : ℚ) (theta_deg ghi : List ℚ)
    (p : VehicleParams) : (simEbat sinDeg v dt theta_deg ghi p).length = v.length := by
  simp [simEbat, ebatTrace]

/-! ## Monotonicity of the distance integral -/

theorem sum_take_mono {L : List ℚ} (hL : ∀ x ∈ L, 0 ≤ x) {i j : ℕ} (hij : i ≤ j) :
    (L.take i).sum ≤ (L.take j).sum := by
  have hsplit : L.take j = L.take i ++ (L.drop i).take (j - i) := by
    have hj : i + (j - i) = j := by omega
    rw [← hj, List.take_add]
    have h2 : i + (j - i) - i = j - i := by omega
    rw [h2]
  rw [hsplit, List.sum_append]
  have h0 : 0 ≤ ((L.drop i).take (j - i)).sum := by
    apply List.sum_nonneg
    intro x hx
    refine hL x ?_
    exact List.Sublist.subset ((List.take_sublist _ _).trans (List.drop_sublist _ _)) hx
  linarith

theorem distanceTrace_mono {v : List ℚ} {dt d0 : ℚ} (hv : ∀ x ∈ v, 0 ≤ x) (hdt : 0 ≤ dt)
    {i j : ℕ} (hij : i ≤ j) (hj : j < v.length) :
    (distanceTrace v dt d0).getD i 0 ≤ (distanceTrace v dt d0).getD j 0 := by
  have hi : i < v.length := Nat.lt_of_le_of_lt hij hj
  rw [distanceTrace, getD_range_map _ hi, getD_range_map _ hj]
  have hmap : ∀ x ∈ v.map (fun x => x * dt), 0 ≤ x := by
    intro x hx
    obtain ⟨y, hy, rfl⟩ := List.mem_map.mp hx
    exact mul_nonneg (hv y hy) hdt
  have hsum := sum_take_mono hmap hij
  rw [List.map_take, List.map_take] at *
  linarith

/-! ## Projection lemmas for `simulate` -/

theorem simulate_distance_m (sinDeg : ℚ → ℚ) (v : List ℚ) (dt d0 : ℚ) (theta_deg ghi : List ℚ)
    (p : VehicleParams) (b : Bool) :
    (simulate sinDeg v dt d0 theta_deg ghi p b).distance_m =
      simDistance sinDeg v dt d0 theta_deg ghi p b := rfl

theorem simulate_final_distance_m (sinDeg : ℚ → ℚ) (v : List ℚ) (dt d0 : ℚ)
    (theta_deg ghi : List ℚ) (p : VehicleParams) (b : Bool) :
    (simulate sinDeg v dt d0 theta_deg ghi p b).final_distance_m =
      (simDistance sinDeg v dt d0 theta_deg ghi p b).getLastD 0 := rfl

theorem simulate_Ebat_J (sinDeg : ℚ → ℚ) (v : List ℚ) (dt d0 : ℚ) (theta_deg ghi : List ℚ)
    (p : VehicleParams) (b : Bool) :
    (simulate sinDeg v dt d0 theta_deg ghi p b).Ebat_J =
      simEbat sinDeg v dt theta_deg ghi p := rfl

theorem simulate_final_soc_J (sinDeg : ℚ → ℚ) (v : List ℚ) (dt d0 : ℚ) (theta_deg ghi : List ℚ)
    (p : VehicleParams) (b : Bool) :
    (simulate sinDeg v dt d0 theta_deg ghi p b).final_soc_J =
      (simEbat sinDeg v dt theta_deg ghi p).getLastD 0 := rfl

theorem simulate_E_net_J (sinDeg : ℚ → ℚ) (v : List ℚ) (dt d0 : ℚ) (theta_deg ghi : List ℚ)
    (p : VehicleParams) (b : Bool) :
    (simulate sinDeg v dt d0 theta_deg ghi p b).E_net_J =
      eNet sinDeg v dt theta_deg ghi p := rfl

theorem simulate_P_net_W (sinDeg : ℚ → ℚ) (v : List ℚ) (dt d0 : ℚ) (theta_deg ghi : List ℚ)
    (p : VehicleParams) (b : Bool) :
    (simulate sinDeg v dt d0 theta_deg ghi p b).P_net_W =
      pNet sinDeg v theta_deg ghi p := rfl

theorem simulate_P_rr_W (sinDeg : ℚ → ℚ) (v : List ℚ) (dt d0 : ℚ) (theta_deg ghi : List ℚ)
    (p : VehicleParams) (b : Bool) :
    (simulate sinDeg v dt d0 theta_deg ghi p b).P_rr_W = pRR v p := rfl

theorem simulate_P_drag_W (sinDeg : ℚ → ℚ) (v : List ℚ) (dt d0 : ℚ) (theta_deg ghi : List ℚ)
    (p : VehicleParams) (b : Bool) :
    (simulate sinDeg v dt d0 theta_deg ghi p b).P_drag_W = pDrag v p := rfl

theorem simulate_P_grade_W (sinDeg : ℚ → ℚ) (v : List ℚ) (dt d0 : ℚ) (theta_deg ghi : List ℚ)
    (p : VehicleParams) (b : Bool) :
    (simulate sinDeg v dt d0 theta_deg ghi p b).P_grade_W =
      pGradeRaw sinDeg v theta_deg p := rfl

theorem simulate_P_solar_W (sinDeg : ℚ → ℚ) (v : List ℚ) (dt d0 : ℚ) (theta_deg ghi : List ℚ)
    (p : VehicleParams) (b : Bool) :
    (simulate sinDeg v dt d0 theta_deg ghi p b).P_solar_W = pSolar ghi p := rfl

/-! ## Claim C1 -/

/-- C1 counterexample: on the input `v = [0,10,0]`, `dt = 3600`,
`theta = [0,0,0]`, `ghi = [1000,0,0]` with default parameters, the battery
is full at index 1 (`Ebat[1] = capacity`), yet
`Ebat[2] ≠ clip(capacity - E_net[1], 0, capacity)`: the surplus accumulated
at step 0 while the battery was already full offsets the draw of step 1,
because the code clips the cumulative sum, not each step. -/
theorem c1_counterexample :
    (simulate sinDeg0 [0, 10, 0] 3600 0 [0, 0, 0] [1000, 0, 0] defaultVP true).Ebat_J.getD 1 0
        = defaultVP.bat_max_energy ∧
      (simulate sinDeg0 [0, 10, 0] 3600 0 [0, 0, 0] [1000, 0, 0] defaultVP true).Ebat_J.getD 2 0
        ≠ clip (defaultVP.bat_max_energy -
            (simulate sinDeg0 [0, 10, 0] 3600 0 [0, 0, 0] [1000, 0, 0]
              defaultVP true).E_net_J.getD 1 0)
            0 defaultVP.bat_max_energy := by decide

/-- C1 (amended): in `simulate` the battery trace clips only the cumulative
net-energy sum: for every input and every index `i` with `i + 1 < N`,
`Ebat[i+1] = clip(battery_capacity - Σ_{k ≤ i} E_net[k], 0, battery_capacity)`.
Surplus accumulated while the battery is already full is therefore retained
in the cumulative sum and can offset a later net draw (over-charge
carry-over does occur). -/
theorem c1_cumulative_clip (sinDeg : ℚ → ℚ) (v : List ℚ) (dt d0 : ℚ)
    (theta_deg ghi : List ℚ) (p : VehicleParams) (b : Bool) (i : ℕ)
    (hi : i + 1 < v.length) :
    (simulate sinDeg v dt d0 theta_deg ghi p b).Ebat_J.getD (i + 1) 0 =
      clip (p.bat_max_energy -
          (((simulate sinDeg v dt d0 theta_deg ghi p b).E_net_J.take (i + 1)).sum))
        0 p.bat_max_energy := by
  rw [simulate_Ebat_J, simulate_E_net_J, simEbat, ebatTrace, getD_range_map _ hi]
  simp

/-- Witness for `c1_cumulative_clip` at a concrete input. -/
theorem c1_cumulative_clip_witness :
    0 + 1 < ([1, 1] : List ℚ).length ∧
      (simulate sinDeg0 [1, 1] 1 0 [0, 0] [0, 0] defaultVP true).Ebat_J.getD (0 + 1) 0 =
        clip (defaultVP.bat_max_energy -
            (((simulate sinDeg0 [1, 1] 1 0 [0, 0] [0, 0] defaultVP true).E_net_J.take (0 + 1)).sum))
          0 defaultVP.bat_max_energy :=
  ⟨by decide, c1_cumulative_clip sinDeg0 [1, 1] 1 0 [0, 0] [0, 0] defaultVP true 0 (by decide)⟩

/-! ## Claim C5 -/

/-- C5: for every input to `simulate` whose parameters have positive battery
capacity, every element of the returned battery-energy trace lies within
`[0, battery_capacity]` inclusive. -/
theorem c5_battery_trace_in_range (sinDeg : ℚ → ℚ) (v : List ℚ) (dt d0 : ℚ)
    (theta_deg ghi : List ℚ) (p : VehicleParams) (b : Bool)
    (hcap : 0 < p.bat_max_energy) :
    ∀ x ∈ (simulate sinDeg v dt d0 theta_deg ghi p b).Ebat_J,
      0 ≤ x ∧ x ≤ p.bat_max_energy := by
  intro x hx
  rw [simulate_Ebat_J] at hx
  simp only [simEbat, ebatTrace, List.mem_map] at hx
  obtain ⟨i, hi, rfl⟩ := hx
  by_cases h0 : i = 0
  · rw [if_pos h0]
    exact ⟨hcap.le, le_refl _⟩
  · rw [if_neg h0, clip]
    exact ⟨le_min (le_max_right _ _) hcap.le, min_le_right _ _⟩

/-- Witness for `c5_battery_trace_in_range` at a concrete input. -/
theorem c5_battery_trace_in_range_witness :
    (0 : ℚ) < defaultVP.bat_max_energy ∧
      ∀ x ∈ (simulate sinDeg0 [10] 60 0 [0] [0] defaultVP true).Ebat_J,
        0 ≤ x ∧ x ≤ defaultVP.bat_max_energy :=
  ⟨by decide, c5_battery_trace_in_range sinDeg0 [10] 60 0 [0] [0] defaultVP true (by decide)⟩

/-! ## Claim C6 -/

/-- C6: the objective equals minus the final distance of `simulate`, plus the
fixed penalty `1e8` exactly when the final battery state is ≤ 0, plus the
proportional penalty `100 * (reserve - soc)` exactly when the final battery
state is below the 10%-of-capacity reserve.  (Finiteness is inherent: the
embedding computes in ℚ, and the score is built from the finite simulator
outputs by finitely many field operations.) -/
theorem c6_objective_formula (sinDeg : ℚ → ℚ) (vs : List ℚ) (dt d0 : ℚ)
    (theta_deg ghi : List ℚ) (p : VehicleParams) :
    objective sinDeg vs dt d0 theta_deg ghi p =
      -(simulate sinDeg vs dt d0 theta_deg ghi p true).final_distance_m +
        (if (simulate sinDeg vs dt d0 theta_deg ghi p true).final_soc_J ≤ 0
          then (100000000 : ℚ) else 0) +
        (if (simulate sinDeg vs dt d0 theta_deg ghi p true).final_soc_J
            < (1 / 10) * p.bat_max_energy
          then ((1 / 10) * p.bat_max_energy -
              (simulate sinDeg vs dt d0 theta_deg ghi p true).final_soc_J) * 100
          else 0) := by
  simp only [objective]
  split_ifs <;> ring

/-! ## Claim C7 -/

/-- C7: drivetrain efficiency divides only the loss-side power terms, never
solar generation: for every timestep `i` (with aligned input lengths and the
efficiency at least the `1e-9` guard, as every valid parameter set has),
`P_net[i] = (P_rr[i] + P_drag[i] + max(P_grade[i], 0)) / drive_eff - P_solar[i]`;
a negative (downhill) grade power is dropped by the `max` and never reduces
the battery draw. -/
theorem c7_drivetrain_on_losses_only (sinDeg : ℚ → ℚ) (v : List ℚ) (dt d0 : ℚ)
    (theta_deg ghi : List ℚ) (p : VehicleParams) (b : Bool) (i : ℕ)
    (heff : (1 : ℚ) / 1000000000 ≤ p.drive_eff)
    (hth : theta_deg.length = v.length) (hg : ghi.length = v.length)
    (hi : i < v.length) :
    (simulate sinDeg v dt d0 theta_deg ghi p b).P_net_W.getD i 0 =
      ((simulate sinDeg v dt d0 theta_deg ghi p b).P_rr_W.getD i 0 +
          (simulate sinDeg v dt d0 theta_deg ghi p b).P_drag_W.getD i 0 +
          max ((simulate sinDeg v dt d0 theta_deg ghi p b).P_grade_W.getD i 0) 0)
        / p.drive_eff -
        (simulate sinDeg v dt d0 theta_deg ghi p b).P_solar_W.getD i 0 := by
  have heq : driveEff p = p.drive_eff := max_eq_left heff
  have hrr : i < (pRR v p).length := by rw [length_pRR]; exact hi
  have hdr : i < (pDrag v p).length := by rw [length_pDrag]; exact hi
  have hgr : i < (pGradeRaw sinDeg v theta_deg p).length := by
    rw [length_pGradeRaw _ _ _ _ hth]; exact hi
  have hso : i < (pSolar ghi p).length := by rw [length_pSolar, hg]; exact hi
  have hm1 : i < ((pRR v p).map (fun x => x / driveEff p)).length := by
    rw [List.length_map]; exact hrr
  have hm2 : i < ((pDrag v p).map (fun x => x / driveEff p)).length := by
    rw [List.length_map]; exact hdr
  have hm3 : i < ((pGradeRaw sinDeg v theta_deg p).map (fun x => max x 0 / driveEff p)).length := by
    rw [List.length_map]; exact hgr
  have hz1 : i < (List.zipWith (fun a b => a + b)
      ((pRR v p).map (fun x => x / driveEff p))
      ((pDrag v p).map (fun x => x / driveEff p))).length := by
    rw [List.length_zipWith]; omega
  have hz2 : i < (List.zipWith (fun a b => a + b)
      (List.zipWith (fun a b => a + b)
        ((pRR v p).map (fun x => x / driveEff p))
        ((pDrag v p).map (fun x => x / driveEff p)))
      ((pGradeRaw sinDeg v theta_deg p).map (fun x => max x 0 / driveEff p))).length := by
    rw [List.length_zipWith]; omega
  rw [simulate_P_net_W, simulate_P_rr_W, simulate_P_drag_W, simulate_P_grade_W,
    simulate_P_solar_W, pNet, getD_zipWith _ _ _ i hz2 hso,
    getD_zipWith _ _ _ i hz1 hm3, getD_zipWith _ _ _ i hm1 hm2,
    getD_map _ hrr, getD_map _ hdr, getD_map _ hgr]
  rw [heq, div_add_div_same, div_add_div_same]

/-- Witness for `c7_drivetrain_on_losses_only` at a concrete input. -/
theorem c7_drivetrain_on_losses_only_witness :
    ((1 : ℚ) / 1000000000 ≤ defaultVP.drive_eff) ∧
      (simulate sinDeg0 [10] 60 0 [0] [0] defaultVP true).P_net_W.getD 0 0 =
        ((simulate sinDeg0 [10] 60 0 [0] [0] defaultVP true).P_rr_W.getD 0 0 +
            (simulate sinDeg0 [10] 60 0 [0] [0] defaultVP true).P_drag_W.getD 0 0 +
            max ((simulate sinDeg0 [10] 60 0 [0] [0] defaultVP true).P_grade_W.getD 0 0) 0)
          / defaultVP.drive_eff -
          (simulate sinDeg0 [10] 60 0 [0] [0] defaultVP true).P_solar_W.getD 0 0 :=
  ⟨by decide, c7_drivetrain_on_losses_only sinDeg0 [10] 60 0 [0] [0] defaultVP true 0
    (by decide) (by decide) (by decide) (by decide)⟩

/-! ## Claim C2 -/

/-- C2 counterexample: with the all-negative velocity profile `[-1, -1]`
(zero grade, zero irradiance, default parameters), no freeze is triggered
(the final battery state stays strictly positive), yet the distance trace
strictly decreases, refuting monotonicity for arbitrary velocity
sequences. -/
theorem c2_counterexample :
    (0 : ℚ) < (simulate sinDeg0 [-1, -1] 1 0 [0, 0] [0, 0] defaultVP true).final_soc_J ∧
      (simulate sinDeg0 [-1, -1] 1 0 [0, 0] [0, 0] defaultVP true).distance_m.getD 1 0 <
        (simulate sinDeg0 [-1, -1] 1 0 [0, 0] [0, 0] defaultVP true).distance_m.getD 0 0 := by
  decide

/-- C2 (amended): for nonnegative velocity sequences and a nonnegative
timestep, the distance trace is monotonically non-decreasing when no freeze
is triggered; with `stop_on_empty` enabled, the distance trace is exactly
constant from the first index where the battery trace reaches ≤ 0 onward,
provided the final battery sample is ≤ 0 (the code gates the freeze on the
final sample only); and a battery that dips to ≤ 0 mid-run but recovers
above zero by the final sample triggers no freeze. -/
theorem c2_distance_monotone_and_freeze (sinDeg : ℚ → ℚ) (v : List ℚ) (dt d0 : ℚ)
    (theta_deg ghi : List ℚ) (p : VehicleParams) (so_e : Bool)
    (hv : ∀ x ∈ v, 0 ≤ x) (hdt : 0 ≤ dt) :
    (¬ (so_e = true ∧ (simEbat sinDeg v dt theta_deg ghi p).getLastD 0 ≤ 0 ∧
          0 < firstEmptyIdx (simEbat sinDeg v dt theta_deg ghi p)) →
        ∀ i j : ℕ, i ≤ j → j < v.length →
          (simulate sinDeg v dt d0 theta_deg ghi p so_e).distance_m.getD i 0 ≤
            (simulate sinDeg v dt d0 theta_deg ghi p so_e).distance_m.getD j 0) ∧
      ((simEbat sinDeg v dt theta_deg ghi p).getLastD 0 ≤ 0 →
        0 < firstEmptyIdx (simEbat sinDeg v dt theta_deg ghi p) →
        ∀ i : ℕ, firstEmptyIdx (simEbat sinDeg v dt theta_deg ghi p) ≤ i → i < v.length →
          (simulate sinDeg v dt d0 theta_deg ghi p true).distance_m.getD i 0 =
            (simulate sinDeg v dt d0 theta_deg ghi p true).distance_m.getD
              (firstEmptyIdx (simEbat sinDeg v dt theta_deg ghi p)) 0) ∧
      (0 < (simEbat sinDeg v dt theta_deg ghi p).getLastD 0 →
        (simulate sinDeg v dt d0 theta_deg ghi p true).distance_m = distanceTrace v dt d0) := by
  refine ⟨?_, ?_, ?_⟩
  · intro hno i j hij hj
    rw [simulate_distance_m, simDistance, if_neg hno]
    exact distanceTrace_mono hv hdt hij hj
  · intro h1 h2 i hei hiN
    have hcond : (true = true ∧ (simEbat sinDeg v dt theta_deg ghi p).getLastD 0 ≤ 0 ∧
        0 < firstEmptyIdx (simEbat sinDeg v dt theta_deg ghi p)) := ⟨rfl, h1, h2⟩
    rw [simulate_distance_m, simDistance, if_pos hcond]
    have hdlen : (distanceTrace v dt d0).length = v.length := length_distanceTrace v dt d0
    have hiN2 : i < (distanceTrace v dt d0).length := by rw [hdlen]; exact hiN
    have heN2 : firstEmptyIdx (simEbat sinDeg v dt theta_deg ghi p) <
        (distanceTrace v dt d0).length := by rw [hdlen]; omega
    rw [freezeDistance, getD_range_map _ hiN2, getD_range_map _ heN2,
      if_neg (not_lt.mpr hei), if_neg (lt_irrefl _)]
  · intro h3
    rw [simulate_distance_m, simDistance, if_neg]
    intro hc
    exact absurd hc.2.1 (not_le.mpr h3)

/-- Witness for `c2_distance_monotone_and_freeze`: a profile that drains the
battery at step 1 has its distance trace frozen there. -/
theorem c2_distance_monotone_and_freeze_witness :
    (∀ x ∈ ([100, 100, 100] : List ℚ), 0 ≤ x) ∧ (0 : ℚ) ≤ 3600 ∧
      (simulate sinDeg0 [100, 100, 100] 3600 0 [0, 0, 0] [0, 0, 0]
          defaultVP true).distance_m.getD 2 0 =
        (simulate sinDeg0 [100, 100, 100] 3600 0 [0, 0, 0] [0, 0, 0]
            defaultVP true).distance_m.getD
          (firstEmptyIdx (simEbat sinDeg0 [100, 100, 100] 3600 [0, 0, 0] [0, 0, 0] defaultVP))
          0 := by
  refine ⟨by decide, by decide, ?_⟩
  exact (c2_distance_monotone_and_freeze sinDeg0 [100, 100, 100] 3600 0 [0, 0, 0] [0, 0, 0]
    defaultVP true (by decide) (by decide)).2.1 (by decide) (by decide) 2 (by decide) (by decide)

/-! ## Claim C3 -/

/-- C3 counterexample: in the spec scenario (N = 10, dt = 60, v ≡ 12 m/s,
zero grade and irradiance, default parameters, d0 = 0) the final distance is
more than 500 m away from the claimed 10*60*12 = 7200 m: the forward-Euler
trace accumulates only N-1 = 9 increments. -/
theorem c3_counterexample :
    500 < |(simulate sinDeg0 (List.replicate 10 12) 60 0 (List.replicate 10 0)
        (List.replicate 10 0) defaultVP true).final_distance_m - 7200| := by decide

/-- C3 (amended): the constant-velocity, zero-grade, zero-irradiance run
over N = 10, dt = 60, v ≡ 12.0 m/s from initial distance 0 returns final
distance exactly (N-1)*60*12 = 6480 m (no freeze is triggered; the final
sample of the forward-Euler distance trace accumulates N-1 increments). -/
theorem c3_constant_velocity_distance :
    (simulate sinDeg0 (List.replicate 10 12) 60 0 (List.replicate 10 0)
        (List.replicate 10 0) defaultVP true).final_distance_m = 6480 := by decide

/-! ## Claim C4 -/

/-- C4 counterexample: in the N = 1 scenario (v = [15], dt = 1800,
grade = [0], ghi = [800], default parameters), the step's net energy draw is
nonzero, yet the final battery state equals the untouched starting capacity:
the single-sample battery trace is never decremented. -/
theorem c4_counterexample :
    (simulate sinDeg0 [15] 1800 0 [0] [800] defaultVP true).E_net_J.getD 0 0 ≠ 0 ∧
      (simulate sinDeg0 [15] 1800 0 [0] [800] defaultVP true).final_soc_J ≠
        defaultVP.bat_max_energy -
          (simulate sinDeg0 [15] 1800 0 [0] [800] defaultVP true).E_net_J.getD 0 0 := by
  decide

/-- C4 (amended): for every initial distance `d0` (and any model of np.sin),
the N = 1 scenario `v = [15]`, `dt = 1800`, `grade = [0]`, `ghi = [800]`
with default parameters returns distance trace `[d0]`, final distance `d0`,
and a final battery state equal to the starting capacity: no step's net
energy is deducted in a single-sample run. -/
theorem c4_single_step (sinDeg : ℚ → ℚ) (d0 : ℚ) :
    (simulate sinDeg [15] 1800 d0 [0] [800] defaultVP true).distance_m = [d0] ∧
      (simulate sinDeg [15] 1800 d0 [0] [800] defaultVP true).final_distance_m = d0 ∧
      (simulate sinDeg [15] 1800 d0 [0] [800] defaultVP true).final_soc_J =
        defaultVP.bat_max_energy := by
  have hE : simEbat sinDeg [15] 1800 [0] [800] defaultVP = [defaultVP.bat_max_energy] := by
    simp [simEbat, ebatTrace, range_one_eq]
  have hcap : ¬ ((defaultVP.bat_max_energy : ℚ) ≤ 0) := by decide
  have hd : simDistance sinDeg [15] 1800 d0 [0] [800] defaultVP true =
      distanceTrace [15] 1800 d0 := by
    rw [simDistance, if_neg]
    intro hc
    rw [hE] at hc
    exact hcap (by simpa using hc.2.1)
  have hdt : distanceTrace [15] 1800 d0 = [d0] := by
    simp [distanceTrace, range_one_eq]
  refine ⟨?_, ?_, ?_⟩
  · rw [simulate_distance_m, hd, hdt]
  · rw [simulate_final_distance_m, hd, hdt]
    rfl
  · rw [simulate_final_soc_J, hE]
    rfl

/-! ## Claim C8 -/

/-- C8 evidence (code bug): `simulate` does not fail fast on the mismatched
input `v = [5,5,5]` versus `ghi = [800]` (length 1 ≠ 3): numpy silently
broadcasts the single irradiance value across all three timesteps and a
result computed from the mismatched physics is returned, instead of the
descriptive boundary error the specification requires. -/
theorem c8_silent_broadcast :
    simulateNp sinDeg0 [5, 5, 5] 3600 0 [0, 0, 0] [800] defaultVP true =
      some (simulate sinDeg0 [5, 5, 5] 3600 0 [0, 0, 0] [800, 800, 800] defaultVP true) := by
  decide

/-! ## Claim C9 -/

/-- C9 evidence (code bug): `update_param("max_iter", None)` raises
TypeError (`int(None)` is not caught: the except clause lists only
ValueError and AttributeError), contradicting the claim and the function's
own docstring ("True if successful, False otherwise"); an unknown parameter
name and a non-numeric string for a numeric field do return False and leave
every field unchanged, and a coercible string sets the field and returns
True. -/
theorem c9_update_param_raises :
    SimConfig.update_param {} "max_iter" PyVal.pnone = Except.error PyErr.typeError ∧
      SimConfig.update_param {} "bogus_name" (PyVal.pfloat 1) =
        Except.ok (false, ({} : SimConfig)) ∧
      SimConfig.update_param {} "dt" (PyVal.pstr "abc") =
        Except.ok (false, ({} : SimConfig)) ∧
      SimConfig.update_param {} "dt" (PyVal.pstr "12.5") =
        Except.ok (true, ({ dt := PyVal.pfloat (25 / 2) } : SimConfig)) := by decide

/-! ## Claim C10 -/

/-- C10: the `stop_on_empty` flag affects only the distance trace and the
final distance: the two runs return identical battery traces, final SOC,
power and energy traces and echoed inputs; and when no freeze is triggered
the distance trace and final distance agree as well. -/
theorem c10_stop_on_empty_frame (sinDeg : ℚ → ℚ) (v : List ℚ) (dt d0 : ℚ)
    (theta_deg ghi : List ℚ) (p : VehicleParams) :
    ((simulate sinDeg v dt d0 theta_deg ghi p true).Ebat_J =
        (simulate sinDeg v dt d0 theta_deg ghi p false).Ebat_J ∧
      (simulate sinDeg v dt d0 theta_deg ghi p true).final_soc_J =
        (simulate sinDeg v dt d0 theta_deg ghi p false).final_soc_J ∧
      (simulate sinDeg v dt d0 theta_deg ghi p true).P_rr_W =
        (simulate sinDeg v dt d0 theta_deg ghi p false).P_rr_W ∧
      (simulate sinDeg v dt d0 theta_deg ghi p true).P_drag_W =
        (simulate sinDeg v dt d0 theta_deg ghi p false).P_drag_W ∧
      (simulate sinDeg v dt d0 theta_deg ghi p true).P_grade_W =
        (simulate sinDeg v dt d0 theta_deg ghi p false).P_grade_W ∧
      (simulate sinDeg v dt d0 theta_deg ghi p true).P_solar_W =
        (simulate sinDeg v dt d0 theta_deg ghi p false).P_solar_W ∧
      (simulate sinDeg v dt d0 theta_deg ghi p true).P_net_W =
        (simulate sinDeg v dt d0 theta_deg ghi p false).P_net_W ∧
      (simulate sinDeg v dt d0 theta_deg ghi p true).E_rr_J =
        (simulate sinDeg v dt d0 theta_deg ghi p false).E_rr_J ∧
      (simulate sinDeg v dt d0 theta_deg ghi p true).E_drag_J =
        (simulate sinDeg v dt d0 theta_deg ghi p false).E_drag_J ∧
      (simulate sinDeg v dt d0 theta_deg ghi p true).E_grade_J =
        (simulate sinDeg v dt d0 theta_deg ghi p false).E_grade_J ∧
      (simulate sinDeg v dt d0 theta_deg ghi p true).E_solar_J =
        (simulate sinDeg v dt d0 theta_deg ghi p false).E_solar_J ∧
      (simulate sinDeg v dt d0 theta_deg ghi p true).E_net_J =
        (simulate sinDeg v dt d0 theta_deg ghi p false).E_net_J ∧
      (simulate sinDeg v dt d0 theta_deg ghi p true).theta_deg =
        (simulate sinDeg v dt d0 theta_deg ghi p false).theta_deg ∧
      (simulate sinDeg v dt d0 theta_deg ghi p true).ghi =
        (simulate sinDeg v dt d0 theta_deg ghi p false).ghi ∧
      (simulate sinDeg v dt d0 theta_deg ghi p true).v =
        (simulate sinDeg v dt d0 theta_deg ghi p false).v) ∧
      (¬ ((simEbat sinDeg v dt theta_deg ghi p).getLastD 0 ≤ 0 ∧
            0 < firstEmptyIdx (simEbat sinDeg v dt theta_deg ghi p)) →
        (simulate sinDeg v dt d0 theta_deg ghi p true).distance_m =
            (simulate sinDeg v dt d0 theta_deg ghi p false).distance_m ∧
          (simulate sinDeg v dt d0 theta_deg ghi p true).final_distance_m =
            (simulate sinDeg v dt d0 theta_deg ghi p false).final_distance_m) := by
  refine ⟨⟨rfl, rfl, rfl, rfl, rfl, rfl, rfl, rfl, rfl, rfl, rfl, rfl, rfl, rfl, rfl⟩, ?_⟩
  intro hno
  have hT : simDistance sinDeg v dt d0 theta_deg ghi p true = distanceTrace v dt d0 := by
    rw [simDistance, if_neg]
    intro hc
    exact hno hc.2
  have hF : simDistance sinDeg v dt d0 theta_deg ghi p false = distanceTrace v dt d0 := by
    rw [simDistance, if_neg]
    intro hc
    exact absurd hc.1 (by decide)
  constructor
  · rw [simulate_distance_m, simulate_distance_m, hT, hF]
  · rw [simulate_final_distance_m, simulate_final_distance_m, hT, hF]

/-- Witness for `c10_stop_on_empty_frame`: on a run that never empties the
battery, the distance traces of the two flag values coincide. -/
theorem c10_stop_on_empty_frame_witness :
    (¬ ((simEbat sinDeg0 [10, 10] 60 [0, 0] [0, 0] defaultVP).getLastD 0 ≤ 0 ∧
          0 < firstEmptyIdx (simEbat sinDeg0 [10, 10] 60 [0, 0] [0, 0] defaultVP))) ∧
      (simulate sinDeg0 [10, 10] 60 0 [0, 0] [0, 0] defaultVP true).distance_m =
        (simulate sinDeg0 [10, 10] 60 0 [0, 0] [0, 0] defaultVP false).distance_m := by
  refine ⟨by decide, ?_⟩
  exact ((c10_stop_on_empty_frame sinDeg0 [10, 10] 60 0 [0, 0] [0, 0] defaultVP).2
    (by decide)).1

end Strategy
